import Mathlib

/-!
Call-trace semantics of `main.cpp`.

The program is a straight-line start-up sequence followed by one render loop.
Everything it does is a call into GLFW, GLAD, OpenGL or `std::cout`, so the
embedding is a function from an environment (the answers the window system and
the driver give) to the trace of calls the program issues and its return value.

* `Call` is the alphabet of the trace: one constructor per entry point, carrying
  the arguments the source passes and, for queries, the answer received.
* `Env` holds every answer the outside world gives.
* `framebuffer_size_callback`, `processInput` and `main` follow the three
  functions of the source statement by statement.
* The render loop takes a fuel argument bounding the number of evaluations of the
  loop condition; a run that exhausts it has `ret = none`.
-/

namespace OpenGL

/-! ## Values passed to the API -/

/-- A decimal floating literal of the source, `num / 10 ^ scale`; `-0.5f` is `⟨-5, 1⟩`. -/
structure FloatLit where
  num : Int
  scale : Nat
  deriving DecidableEq, Repr

/-- The rational number a literal denotes. -/
def FloatLit.toRat (x : FloatLit) : ℚ := (x.num : ℚ) / (10 : ℚ) ^ x.scale

/-- The hints `main` passes to `glfwWindowHint`. -/
inductive WindowHint where
  | GLFW_CONTEXT_VERSION_MAJOR
  | GLFW_CONTEXT_VERSION_MINOR
  | GLFW_OPENGL_PROFILE
  deriving DecidableEq, Repr

/-- The value of a window hint: a number or the core-profile constant. -/
inductive HintValue where
  | int (n : Int)
  | GLFW_OPENGL_CORE_PROFILE
  deriving DecidableEq, Repr

/-- Shader kinds. -/
inductive ShaderType where
  | GL_VERTEX_SHADER
  | GL_FRAGMENT_SHADER
  deriving DecidableEq, Repr

/-- Parameters of `glGetShaderiv`. -/
inductive ShaderParam where
  | GL_COMPILE_STATUS
  | GL_INFO_LOG_LENGTH
  deriving DecidableEq, Repr

/-- Parameters of `glGetProgramiv`. -/
inductive ProgramParam where
  | GL_LINK_STATUS
  | GL_INFO_LOG_LENGTH
  deriving DecidableEq, Repr

/-- Buffer binding targets. -/
inductive BufferTarget where
  | GL_ARRAY_BUFFER
  | GL_ELEMENT_ARRAY_BUFFER
  deriving DecidableEq, Repr

/-- Usage hints of `glBufferData`. -/
inductive BufferUsage where
  | GL_STREAM_DRAW
  | GL_STATIC_DRAW
  | GL_DYNAMIC_DRAW
  deriving DecidableEq, Repr

/-- Component types of a vertex attribute. -/
inductive DataType where
  | GL_FLOAT
  | GL_UNSIGNED_INT
  deriving DecidableEq, Repr

/-- Primitive modes of a draw call. -/
inductive Primitive where
  | GL_POINTS
  | GL_LINES
  | GL_TRIANGLES
  | GL_TRIANGLE_STRIP
  deriving DecidableEq, Repr

/-- Buffers `glClear` can clear. -/
inductive ClearMask where
  | GL_COLOR_BUFFER_BIT
  | GL_DEPTH_BUFFER_BIT
  deriving DecidableEq, Repr

/-- Keys `glfwGetKey` is asked about. -/
inductive Key where
  | GLFW_KEY_ESCAPE
  deriving DecidableEq, Repr

/-- Answers of `glfwGetKey`. -/
inductive KeyState where
  | GLFW_RELEASE
  | GLFW_PRESS
  deriving DecidableEq, Repr

/-! ## The trace alphabet -/

/-- One call issued by the program (or by a callback GLFW runs on its behalf). Queries
carry the answer they received in `result`. The constructors `glDrawElements`,
`glDrawArraysInstanced` and `glBufferSubData` are entry points of the driver that the
source never calls; they are part of the alphabet so that their absence from a trace
is a property of the program. -/
inductive Call where
  | glfwInit
  | glfwWindowHint (hint : WindowHint) (value : HintValue)
  | glfwCreateWindow (width height : Int) (title : String) (result : Option Nat)
  | glfwTerminate
  | glfwMakeContextCurrent (window : Nat)
  | glfwSetFramebufferSizeCallback (window : Nat)
  | gladLoadGLLoader (result : Int)
  | cout (text : String)
  | endl
  | glCreateShader (type : ShaderType) (result : Nat)
  | glShaderSource (shader : Nat) (count : Nat) (source : String)
  | glCompileShader (shader : Nat)
  | glGetShaderiv (shader : Nat) (pname : ShaderParam) (result : Int)
  | glGetShaderInfoLog (shader : Nat) (maxLength : Nat) (result : String)
  | glCreateProgram (result : Nat)
  | glAttachShader (program shader : Nat)
  | glLinkProgram (program : Nat)
  | glGetProgramiv (program : Nat) (pname : ProgramParam) (result : Int)
  | glGetProgramInfoLog (program : Nat) (maxLength : Nat) (result : String)
  | glDeleteShader (shader : Nat)
  | glGenVertexArrays (n : Nat) (result : Nat)
  | glGenBuffers (n : Nat) (result : Nat)
  | glBindVertexArray (array : Nat)
  | glBindBuffer (target : BufferTarget) (buffer : Nat)
  | glBufferData (target : BufferTarget) (size : Nat) (data : List FloatLit)
      (usage : BufferUsage)
  | glBufferSubData (target : BufferTarget) (offset size : Nat) (data : List FloatLit)
  | glVertexAttribPointer (index size : Nat) (type : DataType) (normalized : Bool)
      (stride pointer : Nat)
  | glEnableVertexAttribArray (index : Nat)
  | glfwWindowShouldClose (window : Nat) (result : Bool)
  | glfwGetKey (window : Nat) (key : Key) (result : KeyState)
  | glfwSetWindowShouldClose (window : Nat) (value : Bool)
  | glClearColor (red green blue alpha : FloatLit)
  | glClear (mask : ClearMask)
  | glUseProgram (program : Nat)
  | glDrawArrays (mode : Primitive) (first count : Int)
  | glDrawElements (mode : Primitive) (count : Int) (type : DataType) (indices : Nat)
  | glDrawArraysInstanced (mode : Primitive) (first count instances : Int)
  | glfwSwapBuffers (window : Nat)
  | glfwPollEvents
  | glViewport (x y width height : Int)
  deriving DecidableEq, Repr

/-! ## The environment -/

/-- An event the window system has pending when `glfwPollEvents` runs. -/
inductive Event where
  | framebufferSize (width height : Int)
  | close
  deriving DecidableEq, Repr

/-- Every answer the outside world gives to the program. Iterations of the render loop
are numbered from 1. -/
structure Env where
  /-- Result of `glfwCreateWindow`; `none` is `NULL`. -/
  window : Option Nat
  /-- Result of `gladLoadGLLoader`; `0` is failure. -/
  gladLoaded : Int
  /-- Name returned by `glCreateShader(GL_VERTEX_SHADER)`. -/
  vertexShaderName : Nat
  /-- Name returned by `glCreateShader(GL_FRAGMENT_SHADER)`. -/
  fragmentShaderName : Nat
  /-- Name returned by `glCreateProgram`. -/
  programName : Nat
  /-- Name written by `glGenVertexArrays`. -/
  vertexArrayName : Nat
  /-- Name written by `glGenBuffers`. -/
  bufferName : Nat
  /-- Compile status the driver holds for the vertex shader; `0` is `GL_FALSE`. -/
  vertexCompileStatus : Int
  /-- Compile status the driver holds for the fragment shader; `0` is `GL_FALSE`. -/
  fragmentCompileStatus : Int
  /-- Link status the driver holds for the program; `0` is `GL_FALSE`. -/
  linkStatus : Int
  /-- Information log the driver holds for the vertex shader. -/
  vertexInfoLog : String
  /-- Information log the driver holds for the fragment shader. -/
  fragmentInfoLog : String
  /-- Information log the driver holds for the program. -/
  programInfoLog : String
  /-- The close flag of the window when the render loop is first reached. -/
  shouldCloseInit : Bool
  /-- State of the escape key when iteration `i` samples it. -/
  escapeKey : Nat → KeyState
  /-- Events pending when iteration `i` calls `glfwPollEvents`. -/
  events : Nat → List Event

/-- What the window system remembers about the window: the close flag and the
registered framebuffer-size callback. -/
structure Window where
  shouldClose : Bool
  framebufferSizeCallback : Option (Nat → Int → Int → List Call)

/-- The text a `glGet*InfoLog` call with buffer size `maxLength` leaves in the buffer:
at most `maxLength - 1` characters of the log (the last byte is the terminator). Logs
are taken to be single-byte text. -/
def infoLog (maxLength : Nat) (log : String) : String :=
  String.mk (log.data.take (maxLength - 1))

/-- Delivery of one pending event by the window system: a framebuffer-size event runs
the registered callback, a close request sets the close flag. -/
def deliver (window : Nat) (w : Window) : Event → Window × List Call
  | Event.framebufferSize width height =>
    match w.framebufferSizeCallback with
    | some callback => (w, callback window width height)
    | none => (w, [])
  | Event.close => ({ w with shouldClose := true }, [])

/-- The effect of `glfwPollEvents` on the window and the calls made by the callbacks it
runs, for the given pending events in order. -/
def pollEvents (window : Nat) (w : Window) : List Event → Window × List Call
  | [] => (w, [])
  | e :: es =>
    let r := deliver window w e
    let rest := pollEvents window r.1 es
    (rest.1, r.2 ++ rest.2)

/-! ## The source -/

/-- The constant `vertexShaderSource`, up to its first NUL. -/
def vertexShaderSource : String :=
  "#version 330 core\n" ++
  "layout (location = 0) in vec3 aPos;\n" ++
  "void main()\n" ++
  "\x7b\n" ++
  "   gl_Position = vec4(aPos.x, aPos.y, aPos.z, 1.0);\n" ++
  "\x7d"

/-- The constant `fragmentShaderSource`, up to its first NUL. -/
def fragmentShaderSource : String :=
  "#version 330 core\n" ++
  "out vec4 FragColor;\n" ++
  "void main()\n" ++
  "\x7b\n" ++
  "   FragColor = vec4(1.0f, 0.5f, 0.2f, 1.0f);\n" ++
  "\x7d\n"

/-- The value of `sizeof(float)`. -/
def sizeofFloat : Nat := 4

/-- The array `vertices` of `main`. -/
def vertices : List FloatLit :=
  [⟨-5, 1⟩, ⟨-5, 1⟩, ⟨0, 1⟩,
   ⟨5, 1⟩, ⟨-5, 1⟩, ⟨0, 1⟩,
   ⟨0, 1⟩, ⟨5, 1⟩, ⟨0, 1⟩]

/-- The function `framebuffer_size_callback`. -/
def framebuffer_size_callback (_window : Nat) (width height : Int) : List Call :=
  [Call.glViewport 0 0 width height]

/-- The function `processInput`, run in iteration `i`. -/
def processInput (env : Env) (window i : Nat) (w : Window) : Window × List Call :=
  let key := env.escapeKey i
  if key = KeyState.GLFW_PRESS then
    ({ w with shouldClose := true },
      [Call.glfwGetKey window Key.GLFW_KEY_ESCAPE key,
       Call.glfwSetWindowShouldClose window true])
  else
    (w, [Call.glfwGetKey window Key.GLFW_KEY_ESCAPE key])

/-- The body of the render loop of `main`, run in iteration `i`. -/
def frame (env : Env) (window shaderProgram VAO i : Nat) (w : Window) :
    Window × List Call :=
  let input := processInput env window i w
  let polled := pollEvents window input.1 (env.events i)
  (polled.1,
    input.2 ++
    [Call.glClearColor ⟨2, 1⟩ ⟨3, 1⟩ ⟨3, 1⟩ ⟨10, 1⟩,
     Call.glClear ClearMask.GL_COLOR_BUFFER_BIT,
     Call.glUseProgram shaderProgram,
     Call.glBindVertexArray VAO,
     Call.glDrawArrays Primitive.GL_TRIANGLES 0 3,
     Call.glfwSwapBuffers window,
     Call.glfwPollEvents] ++
    polled.2)

/-- Result of running the render loop: the trace of each iteration (the evaluation of
the loop condition followed by the body), and whether the loop condition was seen to
fail within the fuel. -/
structure LoopResult where
  frames : List (List Call)
  exited : Bool

/-- The render loop of `main`, `while(!glfwWindowShouldClose(window))`, started at
iteration `i` with at most `fuel` evaluations of the loop condition. -/
def renderLoop (env : Env) (window shaderProgram VAO : Nat) :
    Nat → Nat → Window → LoopResult
  | 0, _, _ => ⟨[], false⟩
  | fuel + 1, i, w =>
    if w.shouldClose then ⟨[], true⟩
    else
      let body := frame env window shaderProgram VAO i w
      let rest := renderLoop env window shaderProgram VAO fuel (i + 1) body.1
      ⟨(Call.glfwWindowShouldClose window false :: body.2) :: rest.frames, rest.exited⟩

/-- A run of `main`: the calls before the render loop, the trace of each iteration of
the loop, the calls after the loop, and the value returned (`none` when the fuel ran
out before the loop ended). -/
structure Run where
  startup : List Call
  frames : List (List Call)
  teardown : List Call
  ret : Option Int

/-- The whole trace of a run, in program order. -/
def Run.trace (r : Run) : List Call := r.startup ++ r.frames.flatten ++ r.teardown

/-- Lines 46-53 of `main`: library initialisation and window creation. -/
def windowStage (env : Env) : List Call :=
  [Call.glfwInit,
   Call.glfwWindowHint WindowHint.GLFW_CONTEXT_VERSION_MAJOR (HintValue.int 3),
   Call.glfwWindowHint WindowHint.GLFW_CONTEXT_VERSION_MINOR (HintValue.int 3),
   Call.glfwWindowHint WindowHint.GLFW_OPENGL_PROFILE HintValue.GLFW_OPENGL_CORE_PROFILE,
   Call.glfwCreateWindow 800 600 "Learn Opengl" env.window]

/-- Lines 65-78 of `main`: context, resize callback and function-pointer loading. -/
def contextStage (env : Env) (window : Nat) : List Call :=
  [Call.glfwMakeContextCurrent window,
   Call.glfwSetFramebufferSizeCallback window,
   Call.gladLoadGLLoader env.gladLoaded]

/-- Lines 84-110 of `main`: the vertex shader and its compile-status check. -/
def vertexShaderStage (env : Env) : List Call :=
  let vertexShader := env.vertexShaderName
  let success := env.vertexCompileStatus
  [Call.glCreateShader ShaderType.GL_VERTEX_SHADER vertexShader,
   Call.glShaderSource vertexShader 1 vertexShaderSource,
   Call.glCompileShader vertexShader,
   Call.glGetShaderiv vertexShader ShaderParam.GL_COMPILE_STATUS success] ++
  (if success = 0 then
    let infolog := infoLog 512 env.vertexInfoLog
    [Call.glGetShaderInfoLog vertexShader 512 infolog,
     Call.cout "ERROR::SHADER::VERTEX::COMPILATION_FAILED\n",
     Call.cout infolog,
     Call.endl]
   else [])

/-- Lines 112-120 of `main`: the fragment shader. -/
def fragmentShaderStage (env : Env) : List Call :=
  let FragmentShader := env.fragmentShaderName
  [Call.glCreateShader ShaderType.GL_FRAGMENT_SHADER FragmentShader,
   Call.glShaderSource FragmentShader 1 fragmentShaderSource,
   Call.glCompileShader FragmentShader]

/-- Lines 122-138 of `main`: program creation, attachment, link and link-status check. -/
def linkStage (env : Env) : List Call :=
  let shaderProgram := env.programName
  let success := env.linkStatus
  [Call.glCreateProgram shaderProgram,
   Call.glAttachShader shaderProgram env.vertexShaderName,
   Call.glAttachShader shaderProgram env.fragmentShaderName,
   Call.glLinkProgram shaderProgram,
   Call.glGetProgramiv shaderProgram ProgramParam.GL_LINK_STATUS success] ++
  (if success = 0 then
    [Call.glGetProgramInfoLog shaderProgram 512 (infoLog 512 env.programInfoLog)]
   else [])

/-- Lines 141-142 of `main`: deletion of the two shader objects. -/
def deleteStage (env : Env) : List Call :=
  [Call.glDeleteShader env.vertexShaderName,
   Call.glDeleteShader env.fragmentShaderName]

/-- Lines 156-185 of `main`: vertex array, buffer upload and attribute layout. -/
def geometryStage (env : Env) : List Call :=
  let VAO := env.vertexArrayName
  let VBO := env.bufferName
  [Call.glGenVertexArrays 1 VAO,
   Call.glGenBuffers 1 VBO,
   Call.glBindVertexArray VAO,
   Call.glBindBuffer BufferTarget.GL_ARRAY_BUFFER VBO,
   Call.glBufferData BufferTarget.GL_ARRAY_BUFFER (vertices.length * sizeofFloat) vertices
     BufferUsage.GL_STATIC_DRAW,
   Call.glVertexAttribPointer 0 3 DataType.GL_FLOAT false (3 * sizeofFloat) 0,
   Call.glEnableVertexAttribArray 0]

/-- The function `main`. -/
def main (env : Env) (fuel : Nat) : Run :=
  match env.window with
  | none =>
    ⟨windowStage env ++
      [Call.cout "Failed to create GLFW window", Call.endl, Call.glfwTerminate],
      [], [], some (-1)⟩
  | some window =>
    if env.gladLoaded = 0 then
      ⟨windowStage env ++ contextStage env window ++
        [Call.cout "Failed to initialize GLAD", Call.endl],
        [], [], some (-1)⟩
    else
      let loop := renderLoop env window env.programName env.vertexArrayName fuel 1
        ⟨env.shouldCloseInit, some framebuffer_size_callback⟩
      ⟨windowStage env ++ contextStage env window ++ vertexShaderStage env ++
        fragmentShaderStage env ++ linkStage env ++ deleteStage env ++ geometryStage env,
        loop.frames,
        if loop.exited then [Call.glfwWindowShouldClose window true, Call.glfwTerminate]
        else [],
        if loop.exited then some 0 else none⟩

/-! ## Observations on traces -/

/-- Writes to standard output. -/
def isStdout : Call → Bool
  | Call.cout _ => true
  | Call.endl => true
  | _ => false

/-- Draw calls of any shape: non-indexed, indexed or instanced. -/
def isDraw : Call → Bool
  | Call.glDrawArrays _ _ _ => true
  | Call.glDrawElements _ _ _ _ => true
  | Call.glDrawArraysInstanced _ _ _ _ => true
  | _ => false

/-- The three steps that make a rendered frame: clear, draw, buffer swap. -/
def isRenderStep : Call → Bool
  | Call.glClear _ => true
  | Call.glfwSwapBuffers _ => true
  | c => isDraw c

/-- Binding a program for drawing, or drawing. -/
def isBindOrDraw : Call → Bool
  | Call.glUseProgram _ => true
  | c => isDraw c

/-- Calls that take a shader object as an argument. -/
def usesShader : Call → Bool
  | Call.glShaderSource _ _ _ => true
  | Call.glCompileShader _ => true
  | Call.glGetShaderiv _ _ _ => true
  | Call.glGetShaderInfoLog _ _ _ => true
  | Call.glAttachShader _ _ => true
  | Call.glDeleteShader _ => true
  | _ => false

/-- Deletions of a shader object. -/
def isDeleteShader : Call → Bool
  | Call.glDeleteShader _ => true
  | _ => false

/-- Calls that write the data store of a buffer. -/
def isBufferWrite : Call → Bool
  | Call.glBufferData _ _ _ _ => true
  | Call.glBufferSubData _ _ _ _ => true
  | _ => false

/-- Descriptions of a vertex attribute. -/
def isAttribPointer : Call → Bool
  | Call.glVertexAttribPointer _ _ _ _ _ _ => true
  | _ => false

/-- Viewport updates. -/
def isViewport : Call → Bool
  | Call.glViewport _ _ _ _ => true
  | _ => false

/-- Calls that create or destroy a shader, program, buffer or vertex array. -/
def isResourceCall : Call → Bool
  | Call.glCreateShader _ _ => true
  | Call.glCreateProgram _ => true
  | Call.glGenVertexArrays _ _ => true
  | Call.glGenBuffers _ _ => true
  | Call.glDeleteShader _ => true
  | _ => false

/-- The viewport updates owed to a list of pending events: one `glViewport(0, 0, W, H)`
for each framebuffer-size event `(W, H)`, in order of arrival. -/
def viewportUpdates : List Event → List Call
  | [] => []
  | Event.framebufferSize width height :: es =>
    Call.glViewport 0 0 width height :: viewportUpdates es
  | Event.close :: es => viewportUpdates es

/-- Status queries about the shader object named `shader`. -/
def queriesShader (shader : Nat) : Call → Bool
  | Call.glGetShaderiv s _ _ => s == shader
  | _ => false

/-- Calls that attach the shader object named `shader` to a program. -/
def attachesShader (shader : Nat) : Call → Bool
  | Call.glAttachShader _ s => s == shader
  | _ => false

/-! ## Sample environments -/

/-- An environment in which everything succeeds, the escape key is pressed in the
second iteration, and the window is resized to 640 x 480 during the first. -/
def sampleEnv : Env where
  window := some 7
  gladLoaded := 1
  vertexShaderName := 1
  fragmentShaderName := 2
  programName := 3
  vertexArrayName := 1
  bufferName := 1
  vertexCompileStatus := 1
  fragmentCompileStatus := 1
  linkStatus := 1
  vertexInfoLog := ""
  fragmentInfoLog := ""
  programInfoLog := ""
  shouldCloseInit := false
  escapeKey := fun i => if i = 2 then KeyState.GLFW_PRESS else KeyState.GLFW_RELEASE
  events := fun i => if i = 1 then [Event.framebufferSize 640 480] else []

/-- The sample environment with a driver that fails to compile the fragment shader. -/
def fragmentFailEnv : Env :=
  { sampleEnv with
    fragmentCompileStatus := 0
    fragmentInfoLog := "0:1(10): error: GLSL 3.30 is not supported" }

/-- The sample environment with a driver that fails to link the program. -/
def linkFailEnv : Env :=
  { sampleEnv with
    linkStatus := 0
    programInfoLog := "error: linking with uncompiled shader" }

/-! ## Auxiliary lemmas -/

theorem pollEvents_registered (window : Nat) (evs : List Event) (sc : Bool) :
    pollEvents window ⟨sc, some framebuffer_size_callback⟩ evs =
      (⟨sc || decide (Event.close ∈ evs), some framebuffer_size_callback⟩,
        viewportUpdates evs) := by
  induction evs generalizing sc with
  | nil => simp [pollEvents, viewportUpdates]
  | cons e es ih =>
    cases e with
    | framebufferSize width height =>
      simp [pollEvents, deliver, ih, viewportUpdates, framebuffer_size_callback]
    | close =>
      simp [pollEvents, deliver, ih, viewportUpdates]

/-- The calls `processInput` issues in iteration `i`. -/
theorem processInput_calls (env : Env) (window i : Nat) (w : Window) :
    (processInput env window i w).2 =
      Call.glfwGetKey window Key.GLFW_KEY_ESCAPE (env.escapeKey i) ::
        (if env.escapeKey i = KeyState.GLFW_PRESS then
          [Call.glfwSetWindowShouldClose window true] else []) := by
  unfold processInput
  by_cases h : env.escapeKey i = KeyState.GLFW_PRESS <;> simp [h]

theorem processInput_window (env : Env) (window i : Nat) (sc : Bool)
    (cb : Option (Nat → Int → Int → List Call)) :
    (processInput env window i ⟨sc, cb⟩).1 =
      ⟨sc || decide (env.escapeKey i = KeyState.GLFW_PRESS), cb⟩ := by
  unfold processInput
  by_cases h : env.escapeKey i = KeyState.GLFW_PRESS <;> simp [h]

/-- The trace of one iteration body when the resize callback is registered. -/
theorem frame_calls (env : Env) (window p v i : Nat) (sc : Bool) :
    (frame env window p v i ⟨sc, some framebuffer_size_callback⟩).2 =
      Call.glfwGetKey window Key.GLFW_KEY_ESCAPE (env.escapeKey i) ::
        ((if env.escapeKey i = KeyState.GLFW_PRESS then
          [Call.glfwSetWindowShouldClose window true] else []) ++
        [Call.glClearColor ⟨2, 1⟩ ⟨3, 1⟩ ⟨3, 1⟩ ⟨10, 1⟩,
         Call.glClear ClearMask.GL_COLOR_BUFFER_BIT,
         Call.glUseProgram p,
         Call.glBindVertexArray v,
         Call.glDrawArrays Primitive.GL_TRIANGLES 0 3,
         Call.glfwSwapBuffers window,
         Call.glfwPollEvents] ++
        viewportUpdates (env.events i)) := by
  simp only [frame, processInput_window, pollEvents_registered, processInput_calls]
  simp

theorem frame_window (env : Env) (window p v i : Nat) (sc : Bool) :
    (frame env window p v i ⟨sc, some framebuffer_size_callback⟩).1 =
      ⟨(sc || decide (env.escapeKey i = KeyState.GLFW_PRESS)) ||
          decide (Event.close ∈ env.events i),
        some framebuffer_size_callback⟩ := by
  simp only [frame, processInput_window, pollEvents_registered]

/-- Each executed iteration consists of the loop condition answering `false` followed
by the body, run at the iteration's index. -/
theorem renderLoop_frames (env : Env) (window p v : Nat) :
    ∀ (fuel i : Nat) (sc : Bool) (k : Nat) (f : List Call),
      (renderLoop env window p v fuel i ⟨sc, some framebuffer_size_callback⟩).frames[k]? =
        some f →
      f = Call.glfwWindowShouldClose window false ::
        (frame env window p v (i + k) ⟨false, some framebuffer_size_callback⟩).2 := by
  intro fuel
  induction fuel with
  | zero => intro i sc k f h; simp [renderLoop] at h
  | succ fuel ih =>
    intro i sc k f h
    cases sc with
    | true => simp [renderLoop] at h
    | false =>
      simp only [renderLoop, frame_window, Bool.false_eq_true, if_false] at h
      cases k with
      | zero =>
        simpa using h.symm
      | succ k =>
        simp only [List.getElem?_cons_succ] at h
        have := ih (i + 1) _ k f h
        rw [this]
        congr 3
        omega

/-- Every call made by the delivered callbacks is a viewport update at origin `(0, 0)`. -/
theorem viewportUpdates_mem (evs : List Event) (c : Call) (h : c ∈ viewportUpdates evs) :
    ∃ W H, Event.framebufferSize W H ∈ evs ∧ c = Call.glViewport 0 0 W H := by
  induction evs with
  | nil => simp [viewportUpdates] at h
  | cons e es ih =>
    cases e with
    | framebufferSize width height =>
      simp only [viewportUpdates, List.mem_cons] at h
      rcases h with h | h
      · exact ⟨width, height, by simp, h⟩
      · obtain ⟨W, H, hm, hc⟩ := ih h
        exact ⟨W, H, by simp [hm], hc⟩
    | close =>
      simp only [viewportUpdates] at h
      obtain ⟨W, H, hm, hc⟩ := ih h
      exact ⟨W, H, by simp [hm], hc⟩

/-- A predicate that rejects viewport updates rejects everything the callbacks issue. -/
theorem filter_viewportUpdates (q : Call → Bool)
    (hq : ∀ x y W H, q (Call.glViewport x y W H) = false) (evs : List Event) :
    (viewportUpdates evs).filter q = [] := by
  rw [List.filter_eq_nil_iff]
  intro c hc
  obtain ⟨W, H, -, rfl⟩ := viewportUpdates_mem evs c hc
  simp [hq]

/-- The frames of `main` are those of its render loop; a run that fails at start-up has
none. -/
theorem main_frames (env : Env) (fuel : Nat) :
    (main env fuel).frames =
      match env.window with
      | none => []
      | some window =>
        if env.gladLoaded = 0 then []
        else (renderLoop env window env.programName env.vertexArrayName fuel 1
          ⟨env.shouldCloseInit, some framebuffer_size_callback⟩).frames := by
  unfold main
  cases env.window with
  | none => rfl
  | some window =>
    by_cases hg : env.gladLoaded = 0 <;> simp [hg]

/-- The exact trace of the `k+1`-th iteration of any run of `main`. -/
theorem main_frame_shape (env : Env) (fuel k : Nat) (f : List Call)
    (h : (main env fuel).frames[k]? = some f) :
    ∃ window, env.window = some window ∧ env.gladLoaded ≠ 0 ∧
      f = Call.glfwWindowShouldClose window false ::
        Call.glfwGetKey window Key.GLFW_KEY_ESCAPE (env.escapeKey (k + 1)) ::
        ((if env.escapeKey (k + 1) = KeyState.GLFW_PRESS then
          [Call.glfwSetWindowShouldClose window true] else []) ++
        [Call.glClearColor ⟨2, 1⟩ ⟨3, 1⟩ ⟨3, 1⟩ ⟨10, 1⟩,
         Call.glClear ClearMask.GL_COLOR_BUFFER_BIT,
         Call.glUseProgram env.programName,
         Call.glBindVertexArray env.vertexArrayName,
         Call.glDrawArrays Primitive.GL_TRIANGLES 0 3,
         Call.glfwSwapBuffers window,
         Call.glfwPollEvents] ++
        viewportUpdates (env.events (k + 1))) := by
  rw [main_frames] at h
  cases hw : env.window with
  | none => simp [hw] at h
  | some window =>
    by_cases hg : env.gladLoaded = 0
    · simp [hw, hg] at h
    · simp only [hw, hg, if_false] at h
      refine ⟨window, rfl, hg, ?_⟩
      have := renderLoop_frames env window _ _ fuel 1 _ k f h
      rw [this, frame_calls, Nat.add_comm 1 k]

/-- Filtering one iteration of `main` by a predicate that rejects the loop condition,
the key query, the close request and viewport updates leaves what it keeps of the
seven fixed calls. -/
theorem main_frame_filter (q : Call → Bool)
    (h1 : ∀ w b, q (Call.glfwWindowShouldClose w b) = false)
    (h2 : ∀ w k s, q (Call.glfwGetKey w k s) = false)
    (h3 : ∀ w b, q (Call.glfwSetWindowShouldClose w b) = false)
    (h4 : ∀ x y W H, q (Call.glViewport x y W H) = false)
    (env : Env) (fuel k : Nat) (f : List Call)
    (h : (main env fuel).frames[k]? = some f) :
    ∃ window, env.window = some window ∧ env.gladLoaded ≠ 0 ∧
      f.filter q =
        [Call.glClearColor ⟨2, 1⟩ ⟨3, 1⟩ ⟨3, 1⟩ ⟨10, 1⟩,
         Call.glClear ClearMask.GL_COLOR_BUFFER_BIT,
         Call.glUseProgram env.programName,
         Call.glBindVertexArray env.vertexArrayName,
         Call.glDrawArrays Primitive.GL_TRIANGLES 0 3,
         Call.glfwSwapBuffers window,
         Call.glfwPollEvents].filter q := by
  obtain ⟨window, hw, hg, rfl⟩ := main_frame_shape env fuel k f h
  refine ⟨window, hw, hg, ?_⟩
  have hv := filter_viewportUpdates q h4 (env.events (k + 1))
  by_cases hk : env.escapeKey (k + 1) = KeyState.GLFW_PRESS
  · simp only [hk, if_true, List.filter_cons, List.filter_append, h1, h2, h3, hv]
    simp
  · simp only [hk, if_false, List.filter_cons, List.filter_append, h1, h2, hv]
    simp

/-- A run of `main` that passes both start-up checks, unfolded. -/
theorem main_running (env : Env) (fuel window : Nat)
    (hw : env.window = some window) (hg : env.gladLoaded ≠ 0) :
    main env fuel =
      ⟨windowStage env ++ contextStage env window ++ vertexShaderStage env ++
        fragmentShaderStage env ++ linkStage env ++ deleteStage env ++ geometryStage env,
        (renderLoop env window env.programName env.vertexArrayName fuel 1
          ⟨env.shouldCloseInit, some framebuffer_size_callback⟩).frames,
        if (renderLoop env window env.programName env.vertexArrayName fuel 1
          ⟨env.shouldCloseInit, some framebuffer_size_callback⟩).exited
        then [Call.glfwWindowShouldClose window true, Call.glfwTerminate] else [],
        if (renderLoop env window env.programName env.vertexArrayName fuel 1
          ⟨env.shouldCloseInit, some framebuffer_size_callback⟩).exited
        then some 0 else none⟩ := by
  unfold main
  simp [hw, hg]

/-- With the key released and no close request for `m` iterations and the key pressed
in the next one, the loop runs `m + 1` iterations and then sees its condition fail,
provided the fuel allows `m + 2` evaluations of the condition. -/
theorem renderLoop_until_press (env : Env) (window p v : Nat) :
    ∀ (m fuel i : Nat), m + 1 < fuel →
      (∀ j, i ≤ j → j < i + m →
        env.escapeKey j = KeyState.GLFW_RELEASE ∧ Event.close ∉ env.events j) →
      env.escapeKey (i + m) = KeyState.GLFW_PRESS →
      (renderLoop env window p v fuel i
          ⟨false, some framebuffer_size_callback⟩).frames.length = m + 1 ∧
      (renderLoop env window p v fuel i
          ⟨false, some framebuffer_size_callback⟩).exited = true := by
  intro m
  induction m with
  | zero =>
    intro fuel i hf _ hp
    obtain ⟨g, rfl⟩ : ∃ g, fuel = g + 2 := ⟨fuel - 2, by omega⟩
    simp only [Nat.add_zero] at hp
    simp [renderLoop, frame_window, hp]
  | succ m ih =>
    intro fuel i hf hr hp
    obtain ⟨g, rfl⟩ : ∃ g, fuel = g + 1 := ⟨fuel - 1, by omega⟩
    have h0 := hr i (Nat.le_refl i) (by omega)
    have hstep := ih g (i + 1) (by omega)
      (fun j hj1 hj2 => hr j (by omega) (by omega))
      (by rw [← hp]; congr 1; omega)
    simp only [renderLoop, frame_window, Bool.false_eq_true, if_false, h0.1, h0.2,
      decide_False, Bool.or_self, reduceCtorEq, List.length_cons]
    exact ⟨by rw [hstep.1], hstep.2⟩

/-- When every list of a family keeps exactly `[d]` under a filter, the concatenation of
the family keeps one `d` per member. -/
theorem filter_flatten_replicate {α : Type} (q : α → Bool) (d : α) :
    ∀ (L : List (List α)), (∀ f ∈ L, f.filter q = [d]) →
      L.flatten.filter q = List.replicate L.length d
  | [], _ => by simp
  | f :: L, h => by
    have hf := h f (by simp)
    have hL := filter_flatten_replicate q d L (fun g hg => h g (by simp [hg]))
    simp [List.filter_append, hf, hL, List.replicate_succ]

/-- No call outside the render loop is a draw call. -/
theorem main_outside_loop_no_draw (env : Env) (fuel : Nat) :
    (main env fuel).startup.filter isDraw = [] ∧
    (main env fuel).teardown.filter isDraw = [] := by
  unfold main
  cases env.window with
  | none => simp [windowStage, isDraw]
  | some window =>
    by_cases hg : env.gladLoaded = 0
    · simp [hg, windowStage, contextStage, isDraw]
    · simp only [hg, if_false]
      constructor
      · simp only [windowStage, contextStage, vertexShaderStage, fragmentShaderStage,
          linkStage, deleteStage, geometryStage]
        split_ifs <;> simp [isDraw]
      · split_ifs <;> simp [isDraw]

/-- A predicate that rejects the loop condition, the key query, the close request, the
viewport update and the seven fixed calls of the loop body rejects every call of every
iteration of `main`. -/
theorem main_frames_reject (q : Call → Bool)
    (h1 : ∀ w b, q (Call.glfwWindowShouldClose w b) = false)
    (h2 : ∀ w k s, q (Call.glfwGetKey w k s) = false)
    (h3 : ∀ w b, q (Call.glfwSetWindowShouldClose w b) = false)
    (h4 : ∀ x y W H, q (Call.glViewport x y W H) = false)
    (h5 : ∀ p v w,
      [Call.glClearColor ⟨2, 1⟩ ⟨3, 1⟩ ⟨3, 1⟩ ⟨10, 1⟩,
       Call.glClear ClearMask.GL_COLOR_BUFFER_BIT,
       Call.glUseProgram p,
       Call.glBindVertexArray v,
       Call.glDrawArrays Primitive.GL_TRIANGLES 0 3,
       Call.glfwSwapBuffers w,
       Call.glfwPollEvents].filter q = [])
    (env : Env) (fuel : Nat) :
    ∀ c ∈ (main env fuel).frames.flatten, q c = false := by
  intro c hc
  obtain ⟨f, hf, hcf⟩ := List.mem_flatten.mp hc
  obtain ⟨k, hk⟩ := List.mem_iff_getElem?.mp hf
  obtain ⟨w, -, -, hq⟩ := main_frame_filter q h1 h2 h3 h4 env fuel k f hk
  rw [h5] at hq
  have := List.filter_eq_nil_iff.mp hq c hcf
  simpa using this

/-- A filter that rejects every element leaves nothing. -/
theorem filter_eq_nil_of_reject {α : Type} (q : α → Bool) (l : List α)
    (h : ∀ c ∈ l, q c = false) : l.filter q = [] := by
  rw [List.filter_eq_nil_iff]
  intro c hc
  simp [h c hc]

/-- The render loop reads the environment only through the key states and the events. -/
theorem renderLoop_congr (env env2 : Env) (window p v : Nat)
    (hk : env.escapeKey = env2.escapeKey) (he : env.events = env2.events) :
    ∀ (fuel i : Nat) (w : Window),
      renderLoop env window p v fuel i w = renderLoop env2 window p v fuel i w := by
  intro fuel
  induction fuel with
  | zero => intro i w; rfl
  | succ fuel ih =>
    intro i w
    simp only [renderLoop, frame, processInput, hk, he, ih]

/-- The start-up trace of a run that passes both start-up checks. -/
theorem main_startup_running (env : Env) (fuel window : Nat)
    (hw : env.window = some window) (hg : env.gladLoaded ≠ 0) :
    (main env fuel).startup =
      windowStage env ++ contextStage env window ++ vertexShaderStage env ++
        fragmentShaderStage env ++ linkStage env ++ deleteStage env ++ geometryStage env := by
  rw [main_running env fuel window hw hg]

/-- After the loop a run issues nothing, or the failing loop condition and
`glfwTerminate`. -/
theorem main_teardown_running (env : Env) (fuel window : Nat)
    (hw : env.window = some window) (hg : env.gladLoaded ≠ 0) :
    (main env fuel).teardown = [] ∨
    (main env fuel).teardown =
      [Call.glfwWindowShouldClose window true, Call.glfwTerminate] := by
  rw [main_running env fuel window hw hg]
  simp only
  split_ifs
  · exact Or.inr rfl
  · exact Or.inl rfl

/-! ## The claims -/

/-- C1: in a run whose window is created and whose driver loads, with the close flag
initially unset, no close request before iteration `N`, the escape key released in
iterations `1 .. N-1` and pressed in iteration `N` (`N ≥ 1`), and fuel for `N + 1`
evaluations of the loop condition, the render loop executes exactly `N` iterations; each
of them performs exactly one clear, one draw and one buffer swap, in that order; the
`N`-th iteration observes the key, requests the close and still renders its frame; the
loop then sees the close flag, `glfwTerminate` is called and `main` returns `0`. -/
theorem C1_loop_runs_until_escape (env : Env) (window N fuel : Nat)
    (hw : env.window = some window) (hg : env.gladLoaded ≠ 0)
    (hinit : env.shouldCloseInit = false) (hN : 1 ≤ N)
    (hclose : ∀ i, 1 ≤ i → i < N → Event.close ∉ env.events i)
    (hrel : ∀ i, 1 ≤ i → i < N → env.escapeKey i = KeyState.GLFW_RELEASE)
    (hpress : env.escapeKey N = KeyState.GLFW_PRESS)
    (hfuel : N < fuel) :
    (main env fuel).frames.length = N ∧
    (∀ f ∈ (main env fuel).frames,
      f.filter isRenderStep =
        [Call.glClear ClearMask.GL_COLOR_BUFFER_BIT,
         Call.glDrawArrays Primitive.GL_TRIANGLES 0 3,
         Call.glfwSwapBuffers window]) ∧
    (main env fuel).frames[N - 1]? =
      some ([Call.glfwWindowShouldClose window false,
        Call.glfwGetKey window Key.GLFW_KEY_ESCAPE KeyState.GLFW_PRESS,
        Call.glfwSetWindowShouldClose window true,
        Call.glClearColor ⟨2, 1⟩ ⟨3, 1⟩ ⟨3, 1⟩ ⟨10, 1⟩,
        Call.glClear ClearMask.GL_COLOR_BUFFER_BIT,
        Call.glUseProgram env.programName,
        Call.glBindVertexArray env.vertexArrayName,
        Call.glDrawArrays Primitive.GL_TRIANGLES 0 3,
        Call.glfwSwapBuffers window,
        Call.glfwPollEvents] ++ viewportUpdates (env.events N)) ∧
    (main env fuel).teardown =
      [Call.glfwWindowShouldClose window true, Call.glfwTerminate] ∧
    (main env fuel).ret = some 0 := by
  have hloop := renderLoop_until_press env window env.programName env.vertexArrayName
    (N - 1) fuel 1 (by omega)
    (fun j hj1 hj2 => ⟨hrel j hj1 (by omega), hclose j hj1 (by omega)⟩)
    (by rw [← hpress]; congr 1; omega)
  have hlen : (main env fuel).frames.length = N := by
    rw [main_running env fuel window hw hg, hinit]
    simp only [hloop.1]
    omega
  refine ⟨hlen, ?_, ?_, ?_, ?_⟩
  · intro f hf
    obtain ⟨k, hk⟩ := List.mem_iff_getElem?.mp hf
    obtain ⟨w, hw2, -, hq⟩ := main_frame_filter isRenderStep (by intros; rfl) (by intros; rfl)
      (by intros; rfl) (by intros; rfl) env fuel k f hk
    rw [hw] at hw2
    cases hw2
    rw [hq]
    rfl
  · have hlt : N - 1 < (main env fuel).frames.length := by omega
    have hget := List.getElem?_eq_getElem hlt
    obtain ⟨w, hw2, -, hq⟩ := main_frame_shape env fuel (N - 1) _ hget
    rw [hw] at hw2
    cases hw2
    rw [hget, hq]
    have hN1 : N - 1 + 1 = N := by omega
    simp [hN1, hpress]
  · rw [main_running env fuel window hw hg, hinit]
    simp [hloop.2]
  · rw [main_running env fuel window hw hg, hinit]
    simp [hloop.2]

/-- Witness of C1: the sample run, escape pressed in iteration 2. -/
theorem C1_loop_runs_until_escape_witness :
    sampleEnv.escapeKey 1 = KeyState.GLFW_RELEASE ∧
    sampleEnv.escapeKey 2 = KeyState.GLFW_PRESS ∧
    (main sampleEnv 3).frames.length = 2 ∧
    (main sampleEnv 3).teardown =
      [Call.glfwWindowShouldClose 7 true, Call.glfwTerminate] ∧
    (main sampleEnv 3).ret = some 0 :=
  have h := C1_loop_runs_until_escape sampleEnv 7 2 3 rfl (by decide) rfl (by decide)
    (fun i h1 h2 => by
      have : i = 1 := by omega
      subst this
      simp [sampleEnv])
    (fun i h1 h2 => by
      have : i = 1 := by omega
      subst this
      rfl)
    rfl (by decide)
  ⟨rfl, rfl, h.1, h.2.2.2.1, h.2.2.2.2⟩

/-- C7: in every run of `main`, whatever the key states and the compile and link
outcomes, every iteration of the render loop issues exactly one draw call, and that call
is the non-indexed, non-instanced `glDrawArrays(GL_TRIANGLES, 0, 3)`; no draw call is
issued outside the loop, so the run holds exactly one such call per iteration. -/
theorem C7_one_triangle_draw_per_frame (env : Env) (fuel : Nat) :
    (∀ f ∈ (main env fuel).frames,
      f.filter isDraw = [Call.glDrawArrays Primitive.GL_TRIANGLES 0 3]) ∧
    (main env fuel).trace.filter isDraw =
      List.replicate (main env fuel).frames.length
        (Call.glDrawArrays Primitive.GL_TRIANGLES 0 3) := by
  have hframes : ∀ f ∈ (main env fuel).frames,
      f.filter isDraw = [Call.glDrawArrays Primitive.GL_TRIANGLES 0 3] := by
    intro f hf
    obtain ⟨k, hk⟩ := List.mem_iff_getElem?.mp hf
    obtain ⟨w, -, -, hq⟩ := main_frame_filter isDraw (by intros; rfl) (by intros; rfl)
      (by intros; rfl) (by intros; rfl) env fuel k f hk
    rw [hq]
    rfl
  refine ⟨hframes, ?_⟩
  have hout := main_outside_loop_no_draw env fuel
  simp only [Run.trace, List.filter_append, hout.1, hout.2,
    filter_flatten_replicate isDraw _ _ hframes]
  simp

/-- Witness of C7: the sample run has two iterations, each with its one draw call. -/
theorem C7_one_triangle_draw_per_frame_witness :
    (main sampleEnv 3).frames.length = 2 ∧
    (main sampleEnv 3).trace.filter isDraw =
      [Call.glDrawArrays Primitive.GL_TRIANGLES 0 3,
       Call.glDrawArrays Primitive.GL_TRIANGLES 0 3] := by
  have h := (C7_one_triangle_draw_per_frame sampleEnv 3).2
  have hlen : (main sampleEnv 3).frames.length = 2 := by decide
  rw [hlen] at h
  exact ⟨hlen, h⟩

/-- C8: one invocation of `framebuffer_size_callback` with `(W, H)` issues exactly the
call `glViewport(0, 0, W, H)` and nothing else; `main` registers it as the resize
callback before the loop; and in every iteration of every run the callbacks run inside
the event pump that ends the iteration: the iteration is some `body`, holding the
iteration's draw call and no viewport update, followed by `glfwPollEvents` and one
viewport update per pending resize event. In particular a single pending resize to
`(W, H)` makes `glViewport(0, 0, W, H)` the last call of the iteration, hence before the
draw call of the next one. -/
theorem C8_resize_updates_viewport_before_next_draw :
    (∀ (window : Nat) (W H : Int),
      framebuffer_size_callback window W H = [Call.glViewport 0 0 W H]) ∧
    (∀ (env : Env) (fuel window : Nat), env.window = some window →
      Call.glfwSetFramebufferSizeCallback window ∈ (main env fuel).startup) ∧
    (∀ (env : Env) (fuel k : Nat) (f : List Call),
      (main env fuel).frames[k]? = some f →
      ∃ body, f = body ++ Call.glfwPollEvents :: viewportUpdates (env.events (k + 1)) ∧
        body.filter isDraw = [Call.glDrawArrays Primitive.GL_TRIANGLES 0 3] ∧
        body.filter isViewport = [] ∧ Call.glfwPollEvents ∉ body) ∧
    (∀ (env : Env) (fuel k : Nat) (f : List Call) (W H : Int),
      (main env fuel).frames[k]? = some f →
      env.events (k + 1) = [Event.framebufferSize W H] →
      ∃ body, f = body ++ [Call.glfwPollEvents, Call.glViewport 0 0 W H] ∧
        body.filter isDraw = [Call.glDrawArrays Primitive.GL_TRIANGLES 0 3] ∧
        body.filter isViewport = [] ∧ Call.glfwPollEvents ∉ body) := by
  have hgen : ∀ (env : Env) (fuel k : Nat) (f : List Call),
      (main env fuel).frames[k]? = some f →
      ∃ body, f = body ++ Call.glfwPollEvents :: viewportUpdates (env.events (k + 1)) ∧
        body.filter isDraw = [Call.glDrawArrays Primitive.GL_TRIANGLES 0 3] ∧
        body.filter isViewport = [] ∧ Call.glfwPollEvents ∉ body := by
    intro env fuel k f h
    obtain ⟨window, -, -, rfl⟩ := main_frame_shape env fuel k f h
    refine ⟨Call.glfwWindowShouldClose window false ::
        Call.glfwGetKey window Key.GLFW_KEY_ESCAPE (env.escapeKey (k + 1)) ::
        ((if env.escapeKey (k + 1) = KeyState.GLFW_PRESS then
          [Call.glfwSetWindowShouldClose window true] else []) ++
        [Call.glClearColor ⟨2, 1⟩ ⟨3, 1⟩ ⟨3, 1⟩ ⟨10, 1⟩,
         Call.glClear ClearMask.GL_COLOR_BUFFER_BIT,
         Call.glUseProgram env.programName,
         Call.glBindVertexArray env.vertexArrayName,
         Call.glDrawArrays Primitive.GL_TRIANGLES 0 3,
         Call.glfwSwapBuffers window]), ?_, ?_, ?_, ?_⟩
    · simp
    · split_ifs <;> simp [isDraw]
    · split_ifs <;> simp [isViewport]
    · split_ifs <;> simp
  refine ⟨fun _ _ _ => rfl, ?_, hgen, ?_⟩
  · intro env fuel window hw
    unfold main
    by_cases hg : env.gladLoaded = 0 <;> simp [hw, hg, contextStage]
  · intro env fuel k f W H h hev
    obtain ⟨body, hb, h1, h2, h3⟩ := hgen env fuel k f h
    refine ⟨body, ?_, h1, h2, h3⟩
    rw [hb, hev]
    rfl

/-- Witness of C8: in the sample run the window is resized to 640 x 480 during the
first iteration, whose trace ends with the event pump and the viewport update. -/
theorem C8_resize_updates_viewport_before_next_draw_witness :
    (main sampleEnv 3).frames[0]? =
      some [Call.glfwWindowShouldClose 7 false,
        Call.glfwGetKey 7 Key.GLFW_KEY_ESCAPE KeyState.GLFW_RELEASE,
        Call.glClearColor ⟨2, 1⟩ ⟨3, 1⟩ ⟨3, 1⟩ ⟨10, 1⟩,
        Call.glClear ClearMask.GL_COLOR_BUFFER_BIT,
        Call.glUseProgram 3,
        Call.glBindVertexArray 1,
        Call.glDrawArrays Primitive.GL_TRIANGLES 0 3,
        Call.glfwSwapBuffers 7,
        Call.glfwPollEvents,
        Call.glViewport 0 0 640 480] ∧
    ∃ body, [Call.glfwWindowShouldClose 7 false,
        Call.glfwGetKey 7 Key.GLFW_KEY_ESCAPE KeyState.GLFW_RELEASE,
        Call.glClearColor ⟨2, 1⟩ ⟨3, 1⟩ ⟨3, 1⟩ ⟨10, 1⟩,
        Call.glClear ClearMask.GL_COLOR_BUFFER_BIT,
        Call.glUseProgram 3,
        Call.glBindVertexArray 1,
        Call.glDrawArrays Primitive.GL_TRIANGLES 0 3,
        Call.glfwSwapBuffers 7,
        Call.glfwPollEvents,
        Call.glViewport 0 0 640 480] =
        body ++ [Call.glfwPollEvents, Call.glViewport 0 0 640 480] ∧
      body.filter isDraw = [Call.glDrawArrays Primitive.GL_TRIANGLES 0 3] ∧
      body.filter isViewport = [] ∧ Call.glfwPollEvents ∉ body :=
  ⟨by decide,
    C8_resize_updates_viewport_before_next_draw.2.2.2 sampleEnv 3 0 _ 640 480
      (by decide) rfl⟩

/-- C10: every iteration of the render loop, in every run, is the same fixed sequence:
the loop condition answering `false`, the escape-key query, a close request exactly when
the key is pressed, `glClearColor(0.2, 0.3, 0.3, 1.0)`, `glClear(GL_COLOR_BUFFER_BIT)`,
`glUseProgram` of the program created at start-up, `glBindVertexArray` of the vertex
array generated at start-up, the draw call, the buffer swap and the event pump (inside
which the resize callbacks run). The program and vertex-array names do not depend on
the iteration, and no call of an iteration creates or destroys a shader, program,
buffer or vertex array. -/
theorem C10_fixed_frame_sequence (env : Env) (fuel : Nat) :
    (∀ (k : Nat) (f : List Call), (main env fuel).frames[k]? = some f →
      ∃ window, env.window = some window ∧
        f = [Call.glfwWindowShouldClose window false,
            Call.glfwGetKey window Key.GLFW_KEY_ESCAPE (env.escapeKey (k + 1))] ++
          (if env.escapeKey (k + 1) = KeyState.GLFW_PRESS then
            [Call.glfwSetWindowShouldClose window true] else []) ++
          [Call.glClearColor ⟨2, 1⟩ ⟨3, 1⟩ ⟨3, 1⟩ ⟨10, 1⟩,
           Call.glClear ClearMask.GL_COLOR_BUFFER_BIT,
           Call.glUseProgram env.programName,
           Call.glBindVertexArray env.vertexArrayName,
           Call.glDrawArrays Primitive.GL_TRIANGLES 0 3,
           Call.glfwSwapBuffers window,
           Call.glfwPollEvents] ++
          viewportUpdates (env.events (k + 1))) ∧
    (∀ f ∈ (main env fuel).frames, ∀ c ∈ f, isResourceCall c = false) ∧
    [FloatLit.toRat ⟨2, 1⟩, FloatLit.toRat ⟨3, 1⟩, FloatLit.toRat ⟨3, 1⟩,
      FloatLit.toRat ⟨10, 1⟩] = [2 / 10, 3 / 10, 3 / 10, 1] := by
  refine ⟨?_, ?_, ?_⟩
  · intro k f h
    obtain ⟨window, hw, -, rfl⟩ := main_frame_shape env fuel k f h
    exact ⟨window, hw, by simp⟩
  · intro f hf
    obtain ⟨k, hk⟩ := List.mem_iff_getElem?.mp hf
    obtain ⟨w, -, -, hq⟩ := main_frame_filter isResourceCall (by intros; rfl)
      (by intros; rfl) (by intros; rfl) (by intros; rfl) env fuel k f hk
    have hnil : f.filter isResourceCall = [] := by rw [hq]; rfl
    intro c hc
    have := List.filter_eq_nil_iff.mp hnil c hc
    simpa using this
  · simp [FloatLit.toRat]

/-- Witness of C10: the two iterations of the sample run. -/
theorem C10_fixed_frame_sequence_witness :
    (main sampleEnv 3).frames =
      [[Call.glfwWindowShouldClose 7 false,
        Call.glfwGetKey 7 Key.GLFW_KEY_ESCAPE KeyState.GLFW_RELEASE,
        Call.glClearColor ⟨2, 1⟩ ⟨3, 1⟩ ⟨3, 1⟩ ⟨10, 1⟩,
        Call.glClear ClearMask.GL_COLOR_BUFFER_BIT,
        Call.glUseProgram 3,
        Call.glBindVertexArray 1,
        Call.glDrawArrays Primitive.GL_TRIANGLES 0 3,
        Call.glfwSwapBuffers 7,
        Call.glfwPollEvents,
        Call.glViewport 0 0 640 480],
       [Call.glfwWindowShouldClose 7 false,
        Call.glfwGetKey 7 Key.GLFW_KEY_ESCAPE KeyState.GLFW_PRESS,
        Call.glfwSetWindowShouldClose 7 true,
        Call.glClearColor ⟨2, 1⟩ ⟨3, 1⟩ ⟨3, 1⟩ ⟨10, 1⟩,
        Call.glClear ClearMask.GL_COLOR_BUFFER_BIT,
        Call.glUseProgram 3,
        Call.glBindVertexArray 1,
        Call.glDrawArrays Primitive.GL_TRIANGLES 0 3,
        Call.glfwSwapBuffers 7,
        Call.glfwPollEvents]] ∧
    ∀ f ∈ (main sampleEnv 3).frames, ∀ c ∈ f, isResourceCall c = false :=
  ⟨by decide, (C10_fixed_frame_sequence sampleEnv 3).2.1⟩

/-- C2: for every environment, `main` returns `-1` exactly when window creation fails or
function-pointer loading fails. When window creation fails, the only text written to
standard output is `Failed to create GLFW window` and a line end; when the window is
created and loading fails, it is `Failed to initialize GLAD` and a line end; in both
cases the write precedes the return. In every other run `main` returns `0` if it
returns at all (`none` is a loop still running when the fuel is spent). -/
theorem C2_exit_codes (env : Env) (fuel : Nat) :
    ((main env fuel).ret = some (-1) ↔ (env.window = none ∨ env.gladLoaded = 0)) ∧
    (env.window = none →
      (main env fuel).trace.filter isStdout =
        [Call.cout "Failed to create GLFW window", Call.endl]) ∧
    (env.window ≠ none → env.gladLoaded = 0 →
      (main env fuel).trace.filter isStdout =
        [Call.cout "Failed to initialize GLAD", Call.endl]) ∧
    (env.window ≠ none → env.gladLoaded ≠ 0 →
      (main env fuel).ret = some 0 ∨ (main env fuel).ret = none) := by
  cases hw : env.window with
  | none =>
    refine ⟨?_, ?_, ?_, ?_⟩
    · simp [main, hw]
    · intro _
      simp [main, hw, Run.trace, windowStage, isStdout]
    · intro h; exact absurd rfl h
    · intro h; exact absurd rfl h
  | some window =>
    by_cases hg : env.gladLoaded = 0
    · refine ⟨?_, ?_, ?_, ?_⟩
      · simp [main, hw, hg]
      · intro h; cases h
      · intro _ _
        simp [main, hw, hg, Run.trace, windowStage, contextStage, isStdout]
      · intro _ h; exact absurd hg h
    · refine ⟨?_, ?_, ?_, ?_⟩
      · rw [main_running env fuel window hw hg]
        simp only [hg, or_false, reduceCtorEq, iff_false]
        split_ifs <;> simp
      · intro h; cases h
      · intro _ h; exact absurd h hg
      · intro _ _
        rw [main_running env fuel window hw hg]
        simp only
        split_ifs <;> simp

/-- Witness of C2: the three kinds of run at concrete environments. -/
theorem C2_exit_codes_witness :
    (main { sampleEnv with window := none } 3).ret = some (-1) ∧
    (main { sampleEnv with window := none } 3).trace.filter isStdout =
      [Call.cout "Failed to create GLFW window", Call.endl] ∧
    (main { sampleEnv with gladLoaded := 0 } 3).ret = some (-1) ∧
    (main { sampleEnv with gladLoaded := 0 } 3).trace.filter isStdout =
      [Call.cout "Failed to initialize GLAD", Call.endl] ∧
    (main sampleEnv 3).ret = some 0 :=
  ⟨by decide,
    (C2_exit_codes { sampleEnv with window := none } 3).2.1 rfl,
    by decide,
    (C2_exit_codes { sampleEnv with gladLoaded := 0 } 3).2.2.1 (by decide) rfl,
    by decide⟩

/-- C3, evaluated where the driver fails to compile the fragment shader: the compile
status of the vertex shader (name 1) is queried once, but no status query is ever made
about the fragment shader (name 2), which is attached to the program all the same;
nothing is written to standard output, and the run goes on through the link step to the
loop and returns `0`. The compile status and log of the fragment shader have no
influence on any run. -/
theorem C3_fragment_status_never_queried :
    fragmentFailEnv.fragmentCompileStatus = 0 ∧
    (main fragmentFailEnv 3).trace.filter (queriesShader 1) =
      [Call.glGetShaderiv 1 ShaderParam.GL_COMPILE_STATUS 1] ∧
    (main fragmentFailEnv 3).trace.filter (queriesShader 2) = [] ∧
    (main fragmentFailEnv 3).trace.filter (attachesShader 2) = [Call.glAttachShader 3 2] ∧
    (main fragmentFailEnv 3).trace.filter isStdout = [] ∧
    Call.glLinkProgram 3 ∈ (main fragmentFailEnv 3).trace ∧
    (main fragmentFailEnv 3).ret = some 0 ∧
    (∀ (env : Env) (fuel : Nat) (status : Int) (log : String),
      main { env with fragmentCompileStatus := status, fragmentInfoLog := log } fuel =
        main env fuel) := by
  refine ⟨rfl, by decide, by decide, by decide, by decide, by decide, by decide, ?_⟩
  intro env fuel status log
  unfold main
  simp only [renderLoop_congr
    { env with fragmentCompileStatus := status, fragmentInfoLog := log } env _ _ _ rfl rfl]
  rfl

/-- C4, evaluated where the driver fails to link the program: the log is fetched from
the driver with the 512-byte cap, but nothing at all is written to standard output; the
run then deletes the shaders, uploads the geometry, renders two frames and returns
`0`. -/
theorem C4_link_log_fetched_but_not_printed :
    linkFailEnv.linkStatus = 0 ∧
    (main linkFailEnv 3).trace.filter
        (fun c => c == Call.glGetProgramInfoLog 3 512
          "error: linking with uncompiled shader") =
      [Call.glGetProgramInfoLog 3 512 "error: linking with uncompiled shader"] ∧
    (main linkFailEnv 3).trace.filter isStdout = [] ∧
    (main linkFailEnv 3).trace.filter isDeleteShader =
      [Call.glDeleteShader 1, Call.glDeleteShader 2] ∧
    (main linkFailEnv 3).trace.filter isBufferWrite =
      [Call.glBufferData BufferTarget.GL_ARRAY_BUFFER 36 vertices
        BufferUsage.GL_STATIC_DRAW] ∧
    (main linkFailEnv 3).frames.length = 2 ∧
    (main linkFailEnv 3).ret = some 0 := by
  refine ⟨rfl, by decide, by decide, by decide, by decide, by decide, by decide⟩

/-- C5 fails: where the driver reports a failed link status, the start-up sequence
receives that status, and both iterations of the loop bind the program and draw. -/
theorem C5_draws_after_failed_link :
    (main linkFailEnv 3).startup.filter
        (fun c => c == Call.glGetProgramiv 3 ProgramParam.GL_LINK_STATUS 0) =
      [Call.glGetProgramiv 3 ProgramParam.GL_LINK_STATUS 0] ∧
    (main linkFailEnv 3).frames.flatten.filter isBindOrDraw =
      [Call.glUseProgram 3, Call.glDrawArrays Primitive.GL_TRIANGLES 0 3,
       Call.glUseProgram 3, Call.glDrawArrays Primitive.GL_TRIANGLES 0 3] := by
  refine ⟨by decide, by decide⟩

/-- C5, amended: in every run of `main` in which a shader compile or the program link
reports failure, the render loop is not guarded: each iteration binds the program
created at start-up and issues the draw call, and the iterations are exactly those of a
run in which the vertex compile, the fragment compile and the link all report
success. -/
theorem C5_render_loop_ignores_failed_status (env : Env) (fuel : Nat)
    (_hfail : env.vertexCompileStatus = 0 ∨ env.fragmentCompileStatus = 0 ∨
      env.linkStatus = 0) :
    (∀ f ∈ (main env fuel).frames,
      f.filter isBindOrDraw =
        [Call.glUseProgram env.programName,
         Call.glDrawArrays Primitive.GL_TRIANGLES 0 3]) ∧
    (main env fuel).frames =
      (main { env with vertexCompileStatus := 1, fragmentCompileStatus := 1,
                       linkStatus := 1 } fuel).frames := by
  constructor
  · intro f hf
    obtain ⟨k, hk⟩ := List.mem_iff_getElem?.mp hf
    obtain ⟨w, -, -, hq⟩ := main_frame_filter isBindOrDraw (by intros; rfl)
      (by intros; rfl) (by intros; rfl) (by intros; rfl) env fuel k f hk
    rw [hq]
    rfl
  · rw [main_frames, main_frames]
    simp only [renderLoop_congr
      { env with vertexCompileStatus := 1, fragmentCompileStatus := 1, linkStatus := 1 }
      env _ _ _ rfl rfl]

/-- Witness of the amended C5: the run with the failed link. -/
theorem C5_render_loop_ignores_failed_status_witness :
    linkFailEnv.linkStatus = 0 ∧
    (main linkFailEnv 3).frames.length = 2 ∧
    (∀ f ∈ (main linkFailEnv 3).frames,
      f.filter isBindOrDraw =
        [Call.glUseProgram 3, Call.glDrawArrays Primitive.GL_TRIANGLES 0 3]) :=
  ⟨rfl, by decide,
    (C5_render_loop_ignores_failed_status linkFailEnv 3 (Or.inr (Or.inr rfl))).1⟩

/-- C6: in every run of `main` that reaches the link step, whatever the link status,
the whole trace holds exactly two shader deletions, one of the vertex shader and one of
the fragment shader; they come right after the link attempt and its status check (and
the log fetch of a failed link), and everything after them, which is the geometry
upload, the iterations of the loop and the teardown, holds no call that takes a shader
object. -/
theorem C6_shaders_deleted_once_after_link (env : Env) (fuel window : Nat)
    (hw : env.window = some window) (hg : env.gladLoaded ≠ 0) :
    (main env fuel).trace.filter isDeleteShader =
      [Call.glDeleteShader env.vertexShaderName,
       Call.glDeleteShader env.fragmentShaderName] ∧
    ∃ pre post,
      (main env fuel).trace =
        pre ++
        [Call.glLinkProgram env.programName,
         Call.glGetProgramiv env.programName ProgramParam.GL_LINK_STATUS env.linkStatus] ++
        (if env.linkStatus = 0 then
          [Call.glGetProgramInfoLog env.programName 512 (infoLog 512 env.programInfoLog)]
         else []) ++
        [Call.glDeleteShader env.vertexShaderName,
         Call.glDeleteShader env.fragmentShaderName] ++ post ∧
      post =
        [Call.glGenVertexArrays 1 env.vertexArrayName,
         Call.glGenBuffers 1 env.bufferName,
         Call.glBindVertexArray env.vertexArrayName,
         Call.glBindBuffer BufferTarget.GL_ARRAY_BUFFER env.bufferName,
         Call.glBufferData BufferTarget.GL_ARRAY_BUFFER 36 vertices
           BufferUsage.GL_STATIC_DRAW,
         Call.glVertexAttribPointer 0 3 DataType.GL_FLOAT false 12 0,
         Call.glEnableVertexAttribArray 0] ++
        (main env fuel).frames.flatten ++ (main env fuel).teardown ∧
      ∀ c ∈ post, usesShader c = false := by
  have hfr := main_frames_reject usesShader (by intros; rfl) (by intros; rfl)
    (by intros; rfl) (by intros; rfl) (by intros; rfl) env fuel
  have hfd : ∀ c ∈ (main env fuel).frames.flatten, isDeleteShader c = false := by
    intro c hc
    have := hfr c hc
    cases c <;> simp_all [usesShader, isDeleteShader]
  have hst := main_startup_running env fuel window hw hg
  have htd : ∀ c ∈ (main env fuel).teardown, usesShader c = false := by
    intro c hc
    rcases main_teardown_running env fuel window hw hg with h | h <;> rw [h] at hc
    · simp at hc
    · simp only [List.mem_cons, List.mem_singleton, List.not_mem_nil, or_false] at hc
      rcases hc with rfl | rfl <;> rfl
  have htd2 : (main env fuel).teardown.filter isDeleteShader = [] := by
    rcases main_teardown_running env fuel window hw hg with h | h <;> rw [h] <;> rfl
  constructor
  · simp only [Run.trace, List.filter_append, htd2,
      filter_eq_nil_of_reject isDeleteShader _ hfd, hst]
    simp only [windowStage, contextStage, vertexShaderStage, fragmentShaderStage,
      linkStage, deleteStage, geometryStage]
    split_ifs <;> simp [isDeleteShader]
  · refine ⟨windowStage env ++ contextStage env window ++ vertexShaderStage env ++
        fragmentShaderStage env ++
        [Call.glCreateProgram env.programName,
         Call.glAttachShader env.programName env.vertexShaderName,
         Call.glAttachShader env.programName env.fragmentShaderName], _, ?_, rfl, ?_⟩
    · simp only [Run.trace, hst, linkStage, deleteStage, geometryStage]
      simp [sizeofFloat, vertices]
    · intro c hc
      simp only [List.mem_append] at hc
      rcases hc with (hc | hc) | hc
      · simp only [List.mem_cons, List.mem_singleton, List.not_mem_nil, or_false] at hc
        rcases hc with rfl | rfl | rfl | rfl | rfl | rfl | rfl <;> rfl
      · exact hfr c hc
      · exact htd c hc

/-- Witness of C6: the run with the failed link deletes both shaders once. -/
theorem C6_shaders_deleted_once_after_link_witness :
    linkFailEnv.window = some 7 ∧ linkFailEnv.gladLoaded ≠ 0 ∧
    (main linkFailEnv 3).trace.filter isDeleteShader =
      [Call.glDeleteShader 1, Call.glDeleteShader 2] :=
  ⟨rfl, by decide,
    (C6_shaders_deleted_once_after_link linkFailEnv 3 7 rfl (by decide)).1⟩

/-- C9: in every run of `main` that reaches the geometry upload, the start-up sequence
ends with the seven geometry calls; the whole trace holds exactly one write to a buffer,
the upload of the nine values `-0.5, -0.5, 0, 0.5, -0.5, 0, 0, 0.5, 0` in that order
with size `9 * 4 = 36` bytes and usage `GL_STATIC_DRAW`, and exactly one attribute
description, index 0 with 3 float components, not normalised, stride `3 * 4 = 12` bytes
and offset 0, so that 3 vertices times the stride is the uploaded size; no iteration of
the loop writes to a buffer. -/
theorem C9_geometry_uploaded_once (env : Env) (fuel window : Nat)
    (hw : env.window = some window) (hg : env.gladLoaded ≠ 0) :
    (∃ pre, (main env fuel).startup =
      pre ++
        [Call.glGenVertexArrays 1 env.vertexArrayName,
         Call.glGenBuffers 1 env.bufferName,
         Call.glBindVertexArray env.vertexArrayName,
         Call.glBindBuffer BufferTarget.GL_ARRAY_BUFFER env.bufferName,
         Call.glBufferData BufferTarget.GL_ARRAY_BUFFER 36
           [⟨-5, 1⟩, ⟨-5, 1⟩, ⟨0, 1⟩, ⟨5, 1⟩, ⟨-5, 1⟩, ⟨0, 1⟩, ⟨0, 1⟩, ⟨5, 1⟩, ⟨0, 1⟩]
           BufferUsage.GL_STATIC_DRAW,
         Call.glVertexAttribPointer 0 3 DataType.GL_FLOAT false 12 0,
         Call.glEnableVertexAttribArray 0]) ∧
    (main env fuel).trace.filter isBufferWrite =
      [Call.glBufferData BufferTarget.GL_ARRAY_BUFFER 36
        [⟨-5, 1⟩, ⟨-5, 1⟩, ⟨0, 1⟩, ⟨5, 1⟩, ⟨-5, 1⟩, ⟨0, 1⟩, ⟨0, 1⟩, ⟨5, 1⟩, ⟨0, 1⟩]
        BufferUsage.GL_STATIC_DRAW] ∧
    (main env fuel).trace.filter isAttribPointer =
      [Call.glVertexAttribPointer 0 3 DataType.GL_FLOAT false 12 0] ∧
    (∀ f ∈ (main env fuel).frames, ∀ c ∈ f, isBufferWrite c = false) ∧
    vertices.map FloatLit.toRat = [-1 / 2, -1 / 2, 0, 1 / 2, -1 / 2, 0, 0, 1 / 2, 0] ∧
    3 * (3 * sizeofFloat) = vertices.length * sizeofFloat := by
  have hfw := main_frames_reject isBufferWrite (by intros; rfl) (by intros; rfl)
    (by intros; rfl) (by intros; rfl) (by intros; rfl) env fuel
  have hfa := main_frames_reject isAttribPointer (by intros; rfl) (by intros; rfl)
    (by intros; rfl) (by intros; rfl) (by intros; rfl) env fuel
  have hst := main_startup_running env fuel window hw hg
  have htw : (main env fuel).teardown.filter isBufferWrite = [] := by
    rcases main_teardown_running env fuel window hw hg with h | h <;> rw [h] <;> rfl
  have hta : (main env fuel).teardown.filter isAttribPointer = [] := by
    rcases main_teardown_running env fuel window hw hg with h | h <;> rw [h] <;> rfl
  refine ⟨?_, ?_, ?_, ?_, ?_, ?_⟩
  · exact ⟨windowStage env ++ contextStage env window ++ vertexShaderStage env ++
        fragmentShaderStage env ++ linkStage env ++ deleteStage env, by rw [hst]; rfl⟩
  · simp only [Run.trace, List.filter_append, htw,
      filter_eq_nil_of_reject isBufferWrite _ hfw, hst]
    simp only [windowStage, contextStage, vertexShaderStage, fragmentShaderStage,
      linkStage, deleteStage, geometryStage]
    split_ifs <;> simp [isBufferWrite, sizeofFloat, vertices]
  · simp only [Run.trace, List.filter_append, hta,
      filter_eq_nil_of_reject isAttribPointer _ hfa, hst]
    simp only [windowStage, contextStage, vertexShaderStage, fragmentShaderStage,
      linkStage, deleteStage, geometryStage]
    split_ifs <;> simp [isAttribPointer, sizeofFloat]
  · intro f hf c hc
    exact hfw c (List.mem_flatten.mpr ⟨f, hf, hc⟩)
  · simp [vertices, FloatLit.toRat]
    norm_num
  · rfl

/-- Witness of C9: the sample run uploads the triangle once. -/
theorem C9_geometry_uploaded_once_witness :
    sampleEnv.window = some 7 ∧ sampleEnv.gladLoaded ≠ 0 ∧
    (main sampleEnv 3).trace.filter isBufferWrite =
      [Call.glBufferData BufferTarget.GL_ARRAY_BUFFER 36
        [⟨-5, 1⟩, ⟨-5, 1⟩, ⟨0, 1⟩, ⟨5, 1⟩, ⟨-5, 1⟩, ⟨0, 1⟩, ⟨0, 1⟩, ⟨5, 1⟩, ⟨0, 1⟩]
        BufferUsage.GL_STATIC_DRAW] :=
  ⟨rfl, by decide, (C9_geometry_uploaded_once sampleEnv 3 7 rfl (by decide)).2.1⟩

end OpenGL
